import Mathlib

/-!
Verification development for the AI Study Buddy application (`src/app.py`).

The embedding below translates the persistence layer (`users.json`,
`chat_history.json`), the auth helpers (`login_user`, `signup_user`), the
password-reset state machine (`tab_forgot` handlers), the document extractor
(`get_file_text`), the conversation client (`get_gemini_response`) and the
chat turn handler into pure Lean functions.  Python dicts are modelled as
insertion-ordered association lists (`dictGet` / `dictSet` reproduce lookup
and assignment), external collaborators (the SMTP server, the Gemini API,
the pdf/docx/pptx/xlsx extraction libraries) are oracles passed as
arguments, and a Python exception inside a `try` block is modelled by the
oracle's error branch.
-/

namespace StudyBuddy

/-- A value of the `users.json` mapping: either the new dict shape
`{"password": ..., "email": ...}` or a legacy bare password string. -/
inductive UserData where
  | dict (password : String) (email : String)
  | legacy (password : String)
deriving DecidableEq, Repr

/-- The decoded `users.json` file: a Python dict modelled as an
insertion-ordered association list from username to `UserData`. -/
abbrev Users := List (String × UserData)

/-- Python dict lookup `d[k]` / `k in d`: the value at the first matching
key, if any. -/
def dictGet {α : Type} : List (String × α) → String → Option α
  | [], _ => none
  | (k', v) :: rest, k => if k' = k then some v else dictGet rest k

/-- Python dict assignment `d[k] = v`: replace the value at an existing
key in place, otherwise append the new binding at the end. -/
def dictSet {α : Type} : List (String × α) → String → α → List (String × α)
  | [], k, v => [(k, v)]
  | (k', v') :: rest, k, v =>
      if k' = k then (k, v) :: rest else (k', v') :: dictSet rest k v

/-- The password the login comparison uses: the `"password"` field for the
dict shape, the bare string itself for the legacy shape
(`user_data["password"] if isinstance(user_data, dict) else user_data`). -/
def stored_password : UserData → String
  | .dict p _ => p
  | .legacy p => p

/-- Outcome of `login_user`: which branch of the function ran. -/
inductive LoginResult where
  | authenticated
  | invalidPassword
  | userNotFound
deriving DecidableEq, Repr

/-- `login_user` from app.py: look the username up, compare the stored
password (legacy or dict shape) with the supplied one. -/
def login_user (users : Users) (username password : String) : LoginResult :=
  match dictGet users username with
  | some user_data =>
      if stored_password user_data = password then .authenticated
      else .invalidPassword
  | none => .userNotFound

/-- The test of the email-uniqueness loop in `signup_user` and of the
account search in the reset stage-0 handler:
`isinstance(users[u], dict) and users[u].get("email") == email`. -/
def email_matches (ud : UserData) (email : String) : Bool :=
  match ud with
  | .dict _ e => e = email
  | .legacy _ => false

/-- Outcome of `signup_user`: which message the function emits. -/
inductive SignupResult where
  | usernameTaken
  | emailTaken
  | created
deriving DecidableEq, Repr

/-- Result of one `signup_user` call: the message, the resulting store, and
whether `save_users` ran. -/
structure SignupOutcome where
  result : SignupResult
  users : Users
  saved : Bool
deriving DecidableEq, Repr

/-- `signup_user` from app.py: reject a taken username, then reject an email
already carried by any dict-shaped account, otherwise create the account
and persist the store. -/
def signup_user (users : Users) (username password email : String) :
    SignupOutcome :=
  if (dictGet users username).isSome then
    ⟨.usernameTaken, users, false⟩
  else if users.any (fun entry => email_matches entry.2 email) then
    ⟨.emailTaken, users, false⟩
  else
    ⟨.created, dictSet users username (.dict password email), true⟩

/-- The characters of Python's `str(n)` for a non-negative integer, written
with explicit fuel (the fuel never runs out when it is at least `n`). -/
def decimalChars : Nat → Nat → List Char
  | 0, n => [Char.ofNat (48 + n % 10)]
  | fuel + 1, n =>
      if n < 10 then [Char.ofNat (48 + n)]
      else decimalChars fuel (n / 10) ++ [Char.ofNat (48 + n % 10)]

/-- Python's `str(n)` for a non-negative integer `n`: its decimal digit
string, no sign, no leading zeros. -/
def decimalString (n : Nat) : String :=
  (decimalChars n n).asString

/-- The reset-relevant part of `st.session_state`: the stage counter and
the three ticket fields (`generated_otp`, `reset_email`, `reset_username`),
each `none` until first assigned. -/
structure ResetState where
  reset_stage : Nat
  generated_otp : Option String
  reset_email : Option String
  reset_username : Option String
deriving DecidableEq, Repr

/-- Session state right after initialization: stage 0, no ticket data
(`reset_username` is simply absent before the first successful request;
absence and `None` are modelled alike). -/
def initialResetState : ResetState :=
  ⟨0, none, none, none⟩

/-- The account search of the stage-0 handler: the first username whose
record is dict-shaped and whose `"email"` field equals the input. -/
def find_user_by_email (users : Users) (email : String) : Option String :=
  (users.find? (fun entry => email_matches entry.2 email)).map (·.1)

/-- Outcome of `send_otp_email` as the stage-0 handler tests it
(`result == True`): `.ok ()` models the returned `True`, `.error e` models
a returned error string. -/
abbrev SendResult := Except String Unit

/-- The stage-0 "Send OTP Code" handler: search the store by email; if no
account matches report "Email not found."; otherwise generate the code
`str(r)` for the drawn `r` and attempt delivery; on delivered-`True` store
the ticket and move to stage 1, on a delivery error report it and change
nothing.  Returns the new session state and the error message, if any. -/
def requestOTP (users : Users) (st : ResetState) (emailInput : String)
    (r : Nat) (send : SendResult) : ResetState × Option String :=
  match find_user_by_email users emailInput with
  | none => (st, some "Email not found.")
  | some found_user =>
      match send with
      | .ok _ =>
          ({ reset_stage := 1,
             generated_otp := some (decimalString r),
             reset_email := some emailInput,
             reset_username := some found_user }, none)
      | .error e => (st, some ("Error sending email: " ++ e))

/-- The stage-1 "Verify OTP" handler: exact string comparison of the input
against `generated_otp` (a Python `str == None` comparison is `False`, so
the stored side is an `Option`). -/
def verifyOTP (st : ResetState) (otpInput : String) : ResetState × Option String :=
  if some otpInput = st.generated_otp then
    ({ st with reset_stage := 2 }, none)
  else
    (st, some "Invalid OTP.")

/-- The stage-1 "Back" button handler: `st.session_state.reset_stage = 0`
and nothing else. -/
def cancelReset (st : ResetState) : ResetState :=
  { st with reset_stage := 0 }

/-- The assignment `users[reset_username]["password"] = new_pw` of the
stage-2 handler: `none` models the exception Python raises when the key is
absent (`KeyError`) or the record is a legacy bare string (`TypeError`). -/
def updatePassword (users : Users) (username newPw : String) : Option Users :=
  match dictGet users username with
  | some (.dict _ email) => some (dictSet users username (.dict newPw email))
  | _ => none

/-- The stage-2 "Update Password" handler: overwrite the password of the
account named by `reset_username`, save the store, and set the stage back
to 0 (leaving the other session-state fields as they are). -/
def setNewPassword (users : Users) (st : ResetState) (newPw : String) :
    Option (Users × ResetState) :=
  match st.reset_username with
  | none => none
  | some u =>
      (updatePassword users u newPw).map
        (fun users' => (users', { st with reset_stage := 0 }))

/-- One user action on the reset tab while the account store stays fixed:
the stage-0 request, the stage-1 verify, or the stage-1 Back button. -/
inductive ResetStep (users : Users) : ResetState → ResetState → Prop where
  | request {st st' : ResetState} (emailInput : String) (r : Nat)
      (send : SendResult) (msg : Option String) :
      st.reset_stage = 0 →
      requestOTP users st emailInput r send = (st', msg) →
      ResetStep users st st'
  | verify {st st' : ResetState} (otpInput : String) (msg : Option String) :
      st.reset_stage = 1 →
      verifyOTP st otpInput = (st', msg) →
      ResetStep users st st'
  | back {st : ResetState} :
      st.reset_stage = 1 →
      ResetStep users st (cancelReset st)

/-- The session states the reset tab can be in, starting from the initial
state, while the account store stays fixed. -/
inductive ResetReachable (users : Users) : ResetState → Prop where
  | init : ResetReachable users initialResetState
  | step {st st' : ResetState} :
      ResetReachable users st → ResetStep users st st' →
      ResetReachable users st'

/-- One chat message: `{"role": ..., "content": ...}`. -/
structure ChatMessage where
  role : String
  content : String
deriving DecidableEq, Repr

/-- An ordered message list, as stored under one session name. -/
abbrev Messages := List ChatMessage

/-- The decoded `chat_history.json` file: session name to message list,
again an insertion-ordered Python dict. -/
abbrev History := List (String × Messages)

/-- The `chat_history.json` file on disk: `none` models an absent or
unreadable file. -/
abbrev HistoryFile := Option History

/-- `load_history` from app.py: parse the file, an absent or corrupt file
reads as the empty dict. -/
def load_history (f : HistoryFile) : History :=
  f.getD []

/-- `save_history` from app.py: load the whole file, set one key, write the
whole file back. -/
def save_history (f : HistoryFile) (session_name : String) (messages : Messages) :
    HistoryFile :=
  some (dictSet (load_history f) session_name messages)

/-- `delete_chat` from app.py: remove the key if present and rewrite the
file, otherwise do nothing. -/
def delete_chat (f : HistoryFile) (session_name : String) : HistoryFile :=
  let history := load_history f
  if (dictGet history session_name).isSome then
    some (history.filter (fun entry => entry.1 ≠ session_name))
  else f

/-- One entry of the history replayed to the Gemini SDK:
`{"role": role, "parts": [content]}`. -/
structure GeminiMessage where
  role : String
  parts : List String
deriving DecidableEq, Repr

/-- The role translation of `get_gemini_response`:
`"user" if msg["role"] == "user" else "model"`. -/
def to_gemini_role (role : String) : String :=
  if role = "user" then "user" else "model"

/-- The history-replay loop of `get_gemini_response`. -/
def to_gemini_history (history : Messages) : List GeminiMessage :=
  history.map (fun msg => ⟨to_gemini_role msg.role, [msg.content]⟩)

/-- The combined prompt of `get_gemini_response`: Python string truthiness
makes the context branch fire exactly when `context_text` is non-empty. -/
def build_full_prompt (prompt context_text : String) : String :=
  if context_text ≠ "" then
    "Context: " ++ context_text ++ "\n\nQuestion: " ++ prompt
  else prompt

/-- The Gemini provider as an oracle: given the replayed history and the
full prompt it either answers with text (`chat.send_message(...).text`) or
fails (`.error` models any exception the `try` block catches). -/
abbrev GeminiOracle := List GeminiMessage → String → Except String String

/-- The fixed fallback string of `get_gemini_response`. -/
def gemini_fallback : String :=
  "⚠️ System busy or error. Please try again."

/-- `get_gemini_response` from app.py: replay the history, build the
combined prompt, send, and on any send failure return the fixed fallback
string instead of raising. -/
def get_gemini_response (send : GeminiOracle) (prompt : String)
    (context_text : String) (history : Messages) : String :=
  let gemini_history := to_gemini_history history
  let full_prompt := build_full_prompt prompt context_text
  match send gemini_history full_prompt with
  | .ok text => text
  | .error _ => gemini_fallback

/-- Is `b` a UTF-8 continuation byte (`0x80..0xBF`)? -/
def utf8Cont (b : Nat) : Bool :=
  0x80 ≤ b && b ≤ 0xBF

/-- Strict UTF-8 decoding of a byte list, one scalar per step, with fuel
(enough fuel is the byte count).  Overlong encodings, surrogates and
out-of-range sequences are rejected, as Python's `bytes.decode("utf-8")`
rejects them. -/
def decodeUtf8Core : Nat → List Nat → Option (List Char)
  | _, [] => some []
  | 0, _ :: _ => none
  | fuel + 1, b :: bs =>
      if b ≤ 0x7F then
        (decodeUtf8Core fuel bs).map (Char.ofNat b :: ·)
      else if 0xC2 ≤ b && b ≤ 0xDF then
        match bs with
        | b1 :: bs' =>
            if utf8Cont b1 then
              (decodeUtf8Core fuel bs').map
                (Char.ofNat ((b - 0xC0) * 0x40 + (b1 - 0x80)) :: ·)
            else none
        | [] => none
      else if 0xE0 ≤ b && b ≤ 0xEF then
        match bs with
        | b1 :: b2 :: bs' =>
            if utf8Cont b1 && utf8Cont b2
                && (b ≠ 0xE0 || 0xA0 ≤ b1)
                && (b ≠ 0xED || b1 ≤ 0x9F) then
              (decodeUtf8Core fuel bs').map
                (Char.ofNat ((b - 0xE0) * 0x1000 + (b1 - 0x80) * 0x40 + (b2 - 0x80)) :: ·)
            else none
        | _ => none
      else if 0xF0 ≤ b && b ≤ 0xF4 then
        match bs with
        | b1 :: b2 :: b3 :: bs' =>
            if utf8Cont b1 && utf8Cont b2 && utf8Cont b3
                && (b ≠ 0xF0 || 0x90 ≤ b1)
                && (b ≠ 0xF4 || b1 ≤ 0x8F) then
              (decodeUtf8Core fuel bs').map
                (Char.ofNat ((b - 0xF0) * 0x40000 + (b1 - 0x80) * 0x1000
                  + (b2 - 0x80) * 0x40 + (b3 - 0x80)) :: ·)
            else none
        | _ => none
      else none

/-- Python's `raw_bytes.decode("utf-8")`: the decoded string, or `none` for
the `UnicodeDecodeError` case. -/
def decodeUtf8 (bytes : List Nat) : Option String :=
  (decodeUtf8Core bytes.length bytes).map List.asString

/-- An uploaded file as the extractor sees it: the declared name and the
raw bytes of `getvalue()`. -/
structure UploadedFile where
  name : String
  content : List Nat
deriving DecidableEq, Repr

/-- Result of one external extraction library call inside the `try` block:
either the fully accumulated text, or an exception raised after `textSoFar`
had been accumulated (the function then returns `textSoFar`). -/
inductive ExtResult where
  | ok (text : String)
  | exn (textSoFar : String) (msg : String)
deriving DecidableEq, Repr

/-- The four external extraction libraries (pypdf, python-docx, python-pptx,
pandas) as oracles from the raw bytes. -/
structure ExtractLib where
  pdf : List Nat → ExtResult
  docx : List Nat → ExtResult
  pptx : List Nat → ExtResult
  xlsx : List Nat → ExtResult

/-- One character of Python's `str.lower()`: ASCII upper case maps to lower
case (extensions are ASCII, so the ASCII fragment of `lower` suffices). -/
def lowerChar (c : Char) : Char :=
  if 65 ≤ c.toNat && c.toNat ≤ 90 then Char.ofNat (c.toNat + 32) else c

/-- Python's `str.lower()` on the characters of `s`. -/
def lowerString (s : String) : String :=
  (s.data.map lowerChar).asString

/-- Splitting a character list at every `'.'`, accumulating the current
piece in reverse: the recursion behind Python's `name.split('.')`. -/
def splitDotAux : List Char → List Char → List (List Char)
  | [], acc => [acc.reverse]
  | c :: cs, acc =>
      if c = '.' then acc.reverse :: splitDotAux cs []
      else splitDotAux cs (c :: acc)

/-- Python's `name.split('.')`: always a non-empty list of pieces. -/
def splitDot (name : String) : List String :=
  (splitDotAux name.data []).map List.asString

/-- The dispatch key of `get_file_text`:
`uploaded_file.name.split('.')[-1].lower()`. -/
def file_extension (name : String) : String :=
  lowerString ((splitDot name).getLastD "")

/-- The text an `ExtResult` leaves in `text` after the `try` block: the full
text on success, the accumulated part when an exception was caught. -/
def extracted : ExtResult → String
  | .ok t => t
  | .exn t _ => t

/-- `get_file_text` from app.py: dispatch on the lowered extension among the
five known formats; `.txt` decodes the raw bytes as UTF-8 (a decode error
is caught, leaving `text` at its initial `""`); any other extension falls
through every branch and returns the initial `""`. -/
def get_file_text (lib : ExtractLib) (uploaded_file : UploadedFile) : String :=
  let file_ext := file_extension uploaded_file.name
  if file_ext = "pdf" then extracted (lib.pdf uploaded_file.content)
  else if file_ext = "docx" then extracted (lib.docx uploaded_file.content)
  else if file_ext = "pptx" then extracted (lib.pptx uploaded_file.content)
  else if file_ext = "xlsx" then extracted (lib.xlsx uploaded_file.content)
  else if file_ext = "txt" then
    match decodeUtf8 uploaded_file.content with
    | some text => text
    | none => ""
  else ""

/-- The chat-page part of `st.session_state`: the active transcript, the
active session name, and the extracted document context. -/
structure ChatState where
  messages : Messages
  current_session_name : String
  raw_text : String
deriving DecidableEq, Repr

/-- The sentinel name of a brand-new chat. -/
def newChatName : String := "New Chat"

/-- The `chat_input` handler of the AI Chat page: append the user message,
query Gemini with the transcript minus the just-appended message
(`st.session_state.messages[:-1]`), append the reply, derive the session
name from the first 20 characters of the prompt when the chat is still
unnamed, and persist the transcript under that name. -/
def chat_turn (send : GeminiOracle) (f : HistoryFile) (st : ChatState)
    (prompt : String) : ChatState × HistoryFile :=
  let messages1 := st.messages ++ [⟨"user", prompt⟩]
  let response := get_gemini_response send prompt st.raw_text messages1.dropLast
  let messages2 := messages1 ++ [⟨"assistant", response⟩]
  let name :=
    if st.current_session_name = newChatName then
      "Chat: " ++ prompt.take 20 ++ "..."
    else st.current_session_name
  (⟨messages2, name, st.raw_text⟩, save_history f name messages2)

/-! ### Helper lemmas about the dict model -/

theorem dictGet_dictSet_self {α : Type} (l : List (String × α)) (k : String) (v : α) :
    dictGet (dictSet l k v) k = some v := by
  induction l with
  | nil => simp [dictSet, dictGet]
  | cons hd tl ih =>
      by_cases h : hd.1 = k
      · simp [dictSet, dictGet, h]
      · simpa [dictSet, dictGet, h] using ih

theorem dictGet_dictSet_ne {α : Type} (l : List (String × α)) (k q : String) (v : α)
    (h : q ≠ k) : dictGet (dictSet l k v) q = dictGet l q := by
  induction l with
  | nil => simp [dictSet, dictGet, Ne.symm h]
  | cons hd tl ih =>
      by_cases hk : hd.1 = k
      · simp [dictSet, dictGet, hk, h, Ne.symm h]
      · by_cases hq : hd.1 = q
        · simp [dictSet, dictGet, hk, hq, h]
        · simp only [dictSet, if_neg hk, dictGet, if_neg hq]
          exact ih

theorem dictGet_none_keys {α : Type} (l : List (String × α)) (k : String)
    (h : dictGet l k = none) : ∀ entry ∈ l, entry.1 ≠ k := by
  induction l with
  | nil => simp
  | cons hd tl ih =>
      intro entry hmem
      by_cases hk : hd.1 = k
      · simp [dictGet, hk] at h
      · simp only [dictGet, hk, if_false] at h
        rcases List.mem_cons.mp hmem with rfl | hmem'
        · exact hk
        · exact ih h entry hmem'

theorem dictGet_of_mem_nodup {α : Type} {l : List (String × α)} {entry : String × α}
    (hnd : (l.map Prod.fst).Nodup) (hmem : entry ∈ l) :
    dictGet l entry.1 = some entry.2 := by
  induction l with
  | nil => simp at hmem
  | cons hd tl ih =>
      rcases List.mem_cons.mp hmem with rfl | hmem'
      · simp [dictGet]
      · have hk : hd.1 ≠ entry.1 := by
          intro hEq
          have : entry.1 ∈ tl.map Prod.fst := List.mem_map_of_mem Prod.fst hmem'
          rw [List.map_cons, List.nodup_cons] at hnd
          exact hnd.1 (hEq ▸ this)
        rw [List.map_cons, List.nodup_cons] at hnd
        simp only [dictGet, hk, if_false]
        exact ih hnd.2 hmem'

/-! ### Helper lemmas about the decimal representation -/

theorem decimalChars_of_lt_ten (fuel n : Nat) (h : n < 10) :
    decimalChars fuel n = [Char.ofNat (48 + n)] := by
  cases fuel with
  | zero => simp [decimalChars, Nat.mod_eq_of_lt h]
  | succ f => simp [decimalChars, h]

theorem decimalChars_fuel : ∀ n fuel₁ fuel₂ : Nat, n ≤ fuel₁ → n ≤ fuel₂ →
    decimalChars fuel₁ n = decimalChars fuel₂ n := by
  intro n
  induction n using Nat.strong_induction_on with
  | _ n ih =>
      intro fuel₁ fuel₂ h₁ h₂
      by_cases hn : n < 10
      · rw [decimalChars_of_lt_ten _ _ hn, decimalChars_of_lt_ten _ _ hn]
      · have hdiv : n / 10 < n := Nat.div_lt_self (by omega) (by omega)
        obtain ⟨f₁, rfl⟩ : ∃ f, fuel₁ = f + 1 := ⟨fuel₁ - 1, by omega⟩
        obtain ⟨f₂, rfl⟩ : ∃ f, fuel₂ = f + 1 := ⟨fuel₂ - 1, by omega⟩
        simp only [decimalChars, if_neg hn]
        rw [ih (n / 10) hdiv f₁ f₂ (by omega) (by omega)]

theorem decimalString_data_step {n : Nat} (h : 10 ≤ n) :
    (decimalString n).data =
      (decimalString (n / 10)).data ++ [Char.ofNat (48 + n % 10)] := by
  have hdiv : n / 10 < n := Nat.div_lt_self (by omega) (by omega)
  show decimalChars n n = decimalChars (n / 10) (n / 10) ++ [Char.ofNat (48 + n % 10)]
  obtain ⟨f, rfl⟩ : ∃ f, n = f + 1 := ⟨n - 1, by omega⟩
  rw [show decimalChars (f + 1) (f + 1)
        = decimalChars f ((f + 1) / 10) ++ [Char.ofNat (48 + (f + 1) % 10)] from by
        simp [decimalChars, Nat.not_lt.mpr h]]
  rw [decimalChars_fuel ((f + 1) / 10) f ((f + 1) / 10) (by omega) (Nat.le_refl _)]

theorem decimalString_data_base {n : Nat} (h : n < 10) :
    (decimalString n).data = [Char.ofNat (48 + n)] :=
  decimalChars_of_lt_ten n n h

theorem decimalString_data_six {r : Nat} (h1 : 100000 ≤ r) (h2 : r ≤ 999999) :
    (decimalString r).data =
      [Char.ofNat (48 + r / 100000), Char.ofNat (48 + r / 10000 % 10),
       Char.ofNat (48 + r / 1000 % 10), Char.ofNat (48 + r / 100 % 10),
       Char.ofNat (48 + r / 10 % 10), Char.ofNat (48 + r % 10)] := by
  rw [decimalString_data_step (by omega),
      decimalString_data_step (n := r / 10) (by omega),
      decimalString_data_step (n := r / 10 / 10) (by omega),
      decimalString_data_step (n := r / 10 / 10 / 10) (by omega),
      decimalString_data_step (n := r / 10 / 10 / 10 / 10) (by omega),
      decimalString_data_base (n := r / 10 / 10 / 10 / 10 / 10) (by omega)]
  have e2 : r / 10 / 10 = r / 100 := by omega
  have e3 : r / 10 / 10 / 10 = r / 1000 := by omega
  have e4 : r / 10 / 10 / 10 / 10 = r / 10000 := by omega
  have e5 : r / 10 / 10 / 10 / 10 / 10 = r / 100000 := by omega
  rw [e5, e4, e3, e2]
  rfl

theorem otp_shape {r : Nat} (h1 : 100000 ≤ r) (h2 : r ≤ 999999) :
    (decimalString r).length = 6 ∧ (decimalString r).data.head? ≠ some '0' := by
  have hdata := decimalString_data_six h1 h2
  constructor
  · show (decimalString r).data.length = 6
    rw [hdata]
    rfl
  · rw [hdata]
    simp only [List.head?_cons, ne_eq, Option.some.injEq]
    have hlo : 1 ≤ r / 100000 := by omega
    have hhi : r / 100000 ≤ 9 := by omega
    set d := r / 100000 with hd
    interval_cases d <;> decide

/-- A successful stage-0 account search names a dict-shaped account whose
email is the searched one (keys are unique in a Python dict). -/
theorem find_user_by_email_some {users : Users} {email u : String}
    (hnd : (users.map Prod.fst).Nodup)
    (h : find_user_by_email users email = some u) :
    ∃ pw, dictGet users u = some (.dict pw email) := by
  unfold find_user_by_email at h
  cases hf : users.find? (fun entry => email_matches entry.2 email) with
  | none => rw [hf] at h; exact absurd h (by simp)
  | some entry =>
      rw [hf] at h
      simp only [Option.map_some', Option.some.injEq] at h
      have hpred := List.find?_some hf
      have hmem := List.mem_of_find?_eq_some hf
      have hget := dictGet_of_mem_nodup hnd hmem
      cases hud : entry.2 with
      | dict pw e =>
          have he : e = email := by
            rw [hud] at hpred
            simpa [email_matches] using hpred
          rw [h, hud, he] at hget
          exact ⟨pw, hget⟩
      | legacy p =>
          rw [hud] at hpred
          simp [email_matches] at hpred

/-- Invariant of the reset state machine over a fixed account store: past
stage 0 the ticket's username always names a dict-shaped account. -/
theorem reset_reachable_invariant (users : Users)
    (hnd : (users.map Prod.fst).Nodup) :
    ∀ st, ResetReachable users st → 1 ≤ st.reset_stage →
      ∃ u pw email, st.reset_username = some u ∧
        dictGet users u = some (.dict pw email) := by
  intro st hreach
  induction hreach with
  | init => intro h; simp [initialResetState] at h
  | @step st₁ st₂ _ hstep ih =>
      cases hstep with
      | request emailInput r send msg hstage heq =>
          simp only [requestOTP] at heq
          cases hfind : find_user_by_email users emailInput with
          | none =>
              rw [hfind] at heq
              injection heq with h1 h2
              subst h1
              intro h; omega
          | some u =>
              rw [hfind] at heq
              cases send with
              | ok uu =>
                  injection heq with h1 h2
                  subst h1
                  intro _
                  obtain ⟨pw, hacct⟩ := find_user_by_email_some hnd hfind
                  exact ⟨u, pw, emailInput, rfl, hacct⟩
              | error e =>
                  injection heq with h1 h2
                  subst h1
                  intro h; omega
      | verify otpInput msg hstage heq =>
          simp only [verifyOTP] at heq
          by_cases hmatch : some otpInput = st₁.generated_otp
          · rw [if_pos hmatch] at heq
            injection heq with h1 h2
            subst h1
            intro _
            obtain ⟨u, pw, email, hu, hacct⟩ := ih (by omega)
            exact ⟨u, pw, email, hu, hacct⟩
          · rw [if_neg hmatch] at heq
            injection heq with h1 h2
            subst h1
            exact ih
      | back hstage => intro h; simp [cancelReset] at h

/-! ### Claim theorems -/

/-- C1: `get_gemini_response` never raises to its caller: it sends the
combined prompt — `"Context: {context_text}\n\nQuestion: {prompt}"` when
`context_text` is non-empty, the prompt verbatim when it is empty — and on
any provider-side failure returns the fixed fallback string instead of
propagating the error. -/
theorem C1_gemini_never_raises (send : GeminiOracle) (prompt context_text : String)
    (history : Messages) :
    (context_text ≠ "" →
        build_full_prompt prompt context_text =
          "Context: " ++ context_text ++ "\n\nQuestion: " ++ prompt) ∧
    (context_text = "" → build_full_prompt prompt context_text = prompt) ∧
    ((∃ t, send (to_gemini_history history) (build_full_prompt prompt context_text) =
          .ok t ∧ get_gemini_response send prompt context_text history = t) ∨
     (∃ e, send (to_gemini_history history) (build_full_prompt prompt context_text) =
          .error e ∧
        get_gemini_response send prompt context_text history = gemini_fallback)) := by
  refine ⟨fun h => by simp [build_full_prompt, h],
          fun h => by simp [build_full_prompt, h], ?_⟩
  have hmain : get_gemini_response send prompt context_text history =
      match send (to_gemini_history history) (build_full_prompt prompt context_text) with
      | .ok t => t
      | .error _ => gemini_fallback := rfl
  cases hs : send (to_gemini_history history) (build_full_prompt prompt context_text) with
  | ok t => exact Or.inl ⟨t, rfl, by rw [hmain, hs]⟩
  | error e => exact Or.inr ⟨e, rfl, by rw [hmain, hs]⟩

theorem C1_gemini_never_raises_witness :
    build_full_prompt "Q" "ctx" = "Context: ctx\n\nQuestion: Q" ∧
    build_full_prompt "Q" "" = "Q" ∧
    get_gemini_response (fun _ _ => Except.error "boom") "Q" "" [] = gemini_fallback := by
  have h1 := C1_gemini_never_raises (fun _ _ => Except.error "boom") "Q" "ctx" []
  have h2 := C1_gemini_never_raises (fun _ _ => Except.error "boom") "Q" "" []
  refine ⟨h1.1 (by decide), h2.2.1 rfl, ?_⟩
  rcases h2.2.2 with ⟨t, ht, _⟩ | ⟨e, _, hres⟩
  · simp at ht
  · exact hres

/-- C3: Signup with a taken username fails with `UsernameTaken` and does not
save; with the username free, a case-sensitive email match against any
existing (necessarily differently named) account fails with `EmailTaken`
and does not save; only when both checks pass is the new dict-shaped
account created and persisted. -/
theorem C3_signup_checks (users : Users) (username password email : String) :
    ((dictGet users username).isSome →
        signup_user users username password email = ⟨.usernameTaken, users, false⟩) ∧
    (dictGet users username = none → ∀ entry ∈ users, entry.1 ≠ username) ∧
    (dictGet users username = none →
        users.any (fun entry => email_matches entry.2 email) = true →
        signup_user users username password email = ⟨.emailTaken, users, false⟩) ∧
    (dictGet users username = none →
        users.any (fun entry => email_matches entry.2 email) = false →
        signup_user users username password email =
          ⟨.created, dictSet users username (.dict password email), true⟩) := by
  refine ⟨fun h => ?_, fun h => dictGet_none_keys users username h,
          fun h1 h2 => ?_, fun h1 h2 => ?_⟩
  · simp [signup_user, h]
  · simp [signup_user, h1, h2]
  · simp [signup_user, h1, h2]

theorem C3_signup_checks_witness :
    signup_user [("alice", .dict "pw" "a@x")] "alice" "q" "b@x" =
      ⟨.usernameTaken, [("alice", UserData.dict "pw" "a@x")], false⟩ ∧
    ("alice", UserData.dict "pw" "a@x").1 ≠ "bob" ∧
    signup_user [("alice", .dict "pw" "a@x")] "bob" "q" "a@x" =
      ⟨.emailTaken, [("alice", UserData.dict "pw" "a@x")], false⟩ ∧
    signup_user [("alice", .dict "pw" "a@x")] "bob" "q" "b@x" =
      ⟨.created, [("alice", UserData.dict "pw" "a@x"), ("bob", UserData.dict "q" "b@x")],
        true⟩ := by
  have h1 := C3_signup_checks [("alice", UserData.dict "pw" "a@x")] "alice" "q" "b@x"
  have h2 := C3_signup_checks [("alice", UserData.dict "pw" "a@x")] "bob" "q" "a@x"
  have h3 := C3_signup_checks [("alice", UserData.dict "pw" "a@x")] "bob" "q" "b@x"
  exact ⟨h1.1 (by decide),
         h2.2.1 (by decide) ("alice", UserData.dict "pw" "a@x") (by decide),
         h2.2.2.1 (by decide) (by decide),
         h3.2.2.2 (by decide) (by decide)⟩

/-- C4: Login authenticates exactly when the username is present and the
stored password (the `"password"` field of a dict account, the bare string
of a legacy account) equals the supplied one; a present username with a
different password gives the invalid-password outcome, an absent username
the user-not-found outcome; and a successful Signup followed by Login with
the same credentials authenticates. -/
theorem C4_login_spec (users : Users) (username password : String) :
    (∀ user_data, dictGet users username = some user_data →
        (stored_password user_data = password →
            login_user users username password = .authenticated) ∧
        (stored_password user_data ≠ password →
            login_user users username password = .invalidPassword)) ∧
    (dictGet users username = none →
        login_user users username password = .userNotFound) ∧
    (∀ p, stored_password (UserData.legacy p) = p) ∧
    (∀ email, (signup_user users username password email).result = .created →
        login_user (signup_user users username password email).users username password =
          .authenticated) := by
  refine ⟨fun ud h => ⟨fun hp => ?_, fun hp => ?_⟩, fun h => ?_, fun p => rfl,
          fun email hres => ?_⟩
  · simp [login_user, h, hp]
  · simp [login_user, h, hp]
  · simp [login_user, h]
  · by_cases htaken : (dictGet users username).isSome
    · simp [signup_user, htaken] at hres
    · by_cases hemail : users.any (fun entry => email_matches entry.2 email) = true
      · simp [signup_user, htaken, hemail] at hres
      · have husers : (signup_user users username password email).users =
            dictSet users username (.dict password email) := by
          simp [signup_user, htaken, hemail]
        rw [husers]
        simp [login_user, dictGet_dictSet_self, stored_password]

theorem C4_login_spec_witness :
    login_user [("alice", UserData.dict "pw" "a@x"), ("bob", UserData.legacy "s")]
      "alice" "pw" = .authenticated ∧
    login_user [("alice", UserData.dict "pw" "a@x"), ("bob", UserData.legacy "s")]
      "bob" "wrong" = .invalidPassword ∧
    login_user [("alice", UserData.dict "pw" "a@x"), ("bob", UserData.legacy "s")]
      "carol" "pw" = .userNotFound ∧
    stored_password (UserData.legacy "s") = "s" ∧
    login_user (signup_user [] "dora" "d" "d@x").users "dora" "d" = .authenticated := by
  have h1 := C4_login_spec
    [("alice", UserData.dict "pw" "a@x"), ("bob", UserData.legacy "s")] "alice" "pw"
  have h2 := C4_login_spec
    [("alice", UserData.dict "pw" "a@x"), ("bob", UserData.legacy "s")] "bob" "wrong"
  have h3 := C4_login_spec
    [("alice", UserData.dict "pw" "a@x"), ("bob", UserData.legacy "s")] "carol" "pw"
  have h4 := C4_login_spec [] "dora" "d"
  exact ⟨(h1.1 (UserData.dict "pw" "a@x") (by decide)).1 (by decide),
         (h2.1 (UserData.legacy "s") (by decide)).2 (by decide),
         h3.2.1 (by decide),
         h1.2.2.1 "s",
         h4.2.2.2 "d@x" (by decide)⟩

/-- C7: saving a session and reloading the history yields that session's
message list unchanged (order included) under its name, and leaves every
other session name bound exactly as before. -/
theorem C7_history_roundtrip (f : HistoryFile) (session_name : String)
    (messages : Messages) :
    dictGet (load_history (save_history f session_name messages)) session_name =
      some messages ∧
    ∀ other, other ≠ session_name →
      dictGet (load_history (save_history f session_name messages)) other =
        dictGet (load_history f) other := by
  constructor
  · exact dictGet_dictSet_self (load_history f) session_name messages
  · intro other h
    exact dictGet_dictSet_ne (load_history f) session_name other messages h

theorem C7_history_roundtrip_witness :
    dictGet (load_history (save_history (some [("old", [⟨"user", "x"⟩])]) "s"
        [⟨"user", "hi"⟩, ⟨"assistant", "yo"⟩])) "s" =
      some [⟨"user", "hi"⟩, ⟨"assistant", "yo"⟩] ∧
    dictGet (load_history (save_history (some [("old", [⟨"user", "x"⟩])]) "s"
        [⟨"user", "hi"⟩, ⟨"assistant", "yo"⟩])) "old" =
      dictGet (load_history (some [("old", [⟨"user", "x"⟩])])) "old" := by
  have h := C7_history_roundtrip (some [("old", [⟨"user", "x"⟩])]) "s"
    [⟨"user", "hi"⟩, ⟨"assistant", "yo"⟩]
  exact ⟨h.1, h.2 "old" (by decide)⟩

/-- C9: document extraction dispatches only on the lowered file-name
extension: outside the five known formats the result is the empty string
(and the function is total, so nothing is raised), and a `.txt` file whose
bytes decode as UTF-8 yields exactly that decoded text. -/
theorem C9_file_dispatch (lib : ExtractLib) (uploaded_file : UploadedFile) :
    (file_extension uploaded_file.name ∉
        (["pdf", "docx", "pptx", "xlsx", "txt"] : List String) →
      get_file_text lib uploaded_file = "") ∧
    (file_extension uploaded_file.name = "txt" →
      ∀ text, decodeUtf8 uploaded_file.content = some text →
        get_file_text lib uploaded_file = text) := by
  constructor
  · intro h
    simp only [List.mem_cons, List.not_mem_nil, or_false, not_or] at h
    obtain ⟨h1, h2, h3, h4, h5⟩ := h
    simp [get_file_text, h1, h2, h3, h4, h5]
  · intro hext text hdec
    simp [get_file_text, hext, hdec]

theorem C9_file_dispatch_witness :
    get_file_text ⟨fun _ => .ok "", fun _ => .ok "", fun _ => .ok "", fun _ => .ok ""⟩
      ⟨"notes.xyz", [104]⟩ = "" ∧
    get_file_text ⟨fun _ => .ok "", fun _ => .ok "", fun _ => .ok "", fun _ => .ok ""⟩
      ⟨"HELLO.TXT", [104, 101, 108, 108, 111]⟩ = "hello" := by
  refine ⟨(C9_file_dispatch _ ⟨"notes.xyz", [104]⟩).1 (by decide),
          (C9_file_dispatch _ ⟨"HELLO.TXT", [104, 101, 108, 108, 111]⟩).2
            (by decide) "hello" (by decide)⟩

/-- C2: the reset state machine steps as specified: a request whose email
matches no account (legacy records never match) fails with the
email-not-found message and leaves the state unchanged; the generated OTP
is the decimal string of the drawn integer, which in the range
100000–999999 has exactly 6 characters and no leading zero; a delivered
request moves to stage 1 holding email, username and code; a mismatched
verify fails leaving the state unchanged and an exact match moves to
stage 2. -/
theorem C2_reset_stage01 (users : Users) (st : ResetState) (emailInput code : String)
    (r : Nat) (send : SendResult) :
    (∀ p e, email_matches (UserData.legacy p) e = false) ∧
    (find_user_by_email users emailInput = none →
        requestOTP users st emailInput r send = (st, some "Email not found.")) ∧
    (100000 ≤ r → r ≤ 999999 →
        (decimalString r).length = 6 ∧ (decimalString r).data.head? ≠ some '0') ∧
    (∀ u, find_user_by_email users emailInput = some u →
        requestOTP users st emailInput r (.ok ()) =
          (⟨1, some (decimalString r), some emailInput, some u⟩, none)) ∧
    (some code ≠ st.generated_otp → verifyOTP st code = (st, some "Invalid OTP.")) ∧
    (some code = st.generated_otp →
        verifyOTP st code = ({ st with reset_stage := 2 }, none)) := by
  refine ⟨fun p e => rfl, fun h => ?_, fun h1 h2 => otp_shape h1 h2, fun u h => ?_,
          fun h => ?_, fun h => ?_⟩
  · simp [requestOTP, h]
  · simp [requestOTP, h]
  · simp [verifyOTP, h]
  · simp [verifyOTP, h]

theorem C2_reset_stage01_witness :
    email_matches (UserData.legacy "a@x") "a@x" = false ∧
    requestOTP [("leg", UserData.legacy "a@x")] initialResetState "a@x" 123456
        (Except.ok ()) = (initialResetState, some "Email not found.") ∧
    (decimalString 123456).length = 6 ∧
    (decimalString 123456).data.head? ≠ some '0' ∧
    requestOTP [("alice", UserData.dict "pw" "a@x")] initialResetState "a@x" 123456
        (Except.ok ()) =
      (⟨1, some (decimalString 123456), some "a@x", some "alice"⟩, none) ∧
    verifyOTP ⟨1, some "123456", some "a@x", some "alice"⟩ "000000" =
      (⟨1, some "123456", some "a@x", some "alice"⟩, some "Invalid OTP.") ∧
    verifyOTP ⟨1, some "123456", some "a@x", some "alice"⟩ "123456" =
      (⟨2, some "123456", some "a@x", some "alice"⟩, none) := by
  have h1 := C2_reset_stage01 [("leg", UserData.legacy "a@x")] initialResetState
    "a@x" "x" 123456 (Except.ok ())
  have h2 := C2_reset_stage01 [("alice", UserData.dict "pw" "a@x")] initialResetState
    "a@x" "x" 123456 (Except.ok ())
  have h3 := C2_reset_stage01 [] ⟨1, some "123456", some "a@x", some "alice"⟩
    "e" "000000" 123456 (Except.ok ())
  have h4 := C2_reset_stage01 [] ⟨1, some "123456", some "a@x", some "alice"⟩
    "e" "123456" 123456 (Except.ok ())
  exact ⟨h1.1 "a@x" "a@x", h1.2.1 (by decide),
         (h1.2.2.1 (by decide) (by decide)).1,
         (h1.2.2.1 (by decide) (by decide)).2,
         h2.2.2.2.1 "alice" (by decide),
         h3.2.2.2.2.1 (by decide),
         h4.2.2.2.2.2 (by decide)⟩

/-- C5: at stage 2 with a valid ticket, setting the new password overwrites
exactly the named account's password field — its email survives, every
other account is untouched — and only the stage of the session state is
reset. -/
theorem C5_set_password_frame (users : Users) (st : ResetState)
    (newPw u pw email : String)
    (hu : st.reset_username = some u)
    (hacct : dictGet users u = some (.dict pw email)) :
    setNewPassword users st newPw =
      some (dictSet users u (.dict newPw email), { st with reset_stage := 0 }) ∧
    dictGet (dictSet users u (.dict newPw email)) u = some (.dict newPw email) ∧
    ∀ v, v ≠ u → dictGet (dictSet users u (.dict newPw email)) v = dictGet users v := by
  refine ⟨?_, dictGet_dictSet_self _ _ _, fun v hv => dictGet_dictSet_ne _ _ _ _ hv⟩
  simp [setNewPassword, hu, updatePassword, hacct]

theorem C5_set_password_frame_witness :
    setNewPassword [("alice", UserData.dict "pw" "a@x"), ("bob", UserData.legacy "s")]
        ⟨2, some "123456", some "a@x", some "alice"⟩ "new" =
      some ([("alice", UserData.dict "new" "a@x"), ("bob", UserData.legacy "s")],
        ⟨0, some "123456", some "a@x", some "alice"⟩) ∧
    dictGet [("alice", UserData.dict "new" "a@x"), ("bob", UserData.legacy "s")]
      "alice" = some (UserData.dict "new" "a@x") ∧
    dictGet [("alice", UserData.dict "new" "a@x"), ("bob", UserData.legacy "s")]
        "bob" =
      dictGet [("alice", UserData.dict "pw" "a@x"), ("bob", UserData.legacy "s")]
        "bob" := by
  have h := C5_set_password_frame
    [("alice", UserData.dict "pw" "a@x"), ("bob", UserData.legacy "s")]
    ⟨2, some "123456", some "a@x", some "alice"⟩ "new" "alice" "pw" "a@x"
    rfl (by decide)
  exact ⟨h.1, h.2.1, h.2.2 "bob" (by decide)⟩

/-- C6 counterexample: after a successful request and a Cancel from
stage 1 the machine is back at stage 0, yet the generated OTP, the email
and the username of the previous attempt are all still retained in session
state — the claim that no ticket data survives at stage 0 is false. -/
theorem C6_ticket_retained_counterexample :
    (cancelReset ((requestOTP [("alice", UserData.dict "pw" "a@x")] initialResetState
        "a@x" 123456 (Except.ok ())).1)).reset_stage = 0 ∧
    (cancelReset ((requestOTP [("alice", UserData.dict "pw" "a@x")] initialResetState
        "a@x" 123456 (Except.ok ())).1)).generated_otp = some "123456" ∧
    (cancelReset ((requestOTP [("alice", UserData.dict "pw" "a@x")] initialResetState
        "a@x" 123456 (Except.ok ())).1)).reset_email = some "a@x" ∧
    (cancelReset ((requestOTP [("alice", UserData.dict "pw" "a@x")] initialResetState
        "a@x" 123456 (Except.ok ())).1)).reset_username = some "alice" := by
  decide

/-- C6 amended: the Cancel action and the stage-2 completion reset only the
stage to 0; the ticket fields (otp code, email, username) are retained
unchanged in session state, to be overwritten only by the next successful
request. -/
theorem C6_only_stage_reset (st : ResetState) :
    (cancelReset st).reset_stage = 0 ∧
    (cancelReset st).generated_otp = st.generated_otp ∧
    (cancelReset st).reset_email = st.reset_email ∧
    (cancelReset st).reset_username = st.reset_username ∧
    (∀ users newPw users' st', setNewPassword users st newPw = some (users', st') →
      st'.reset_stage = 0 ∧ st'.generated_otp = st.generated_otp ∧
      st'.reset_email = st.reset_email ∧ st'.reset_username = st.reset_username) := by
  refine ⟨rfl, rfl, rfl, rfl, fun users newPw users' st' h => ?_⟩
  cases hu : st.reset_username with
  | none =>
      simp only [setNewPassword, hu] at h
      exact absurd h (by simp)
  | some u =>
      simp only [setNewPassword, hu] at h
      cases hup : updatePassword users u newPw with
      | none => rw [hup] at h; exact absurd h (by simp)
      | some us =>
          rw [hup] at h
          simp only [Option.map_some', Option.some.injEq, Prod.mk.injEq] at h
          rw [← h.2]
          exact ⟨rfl, rfl, rfl, rfl⟩

theorem C6_only_stage_reset_witness :
    (cancelReset ⟨1, some "111111", some "a@x", some "alice"⟩).reset_stage = 0 ∧
    (cancelReset ⟨1, some "111111", some "a@x", some "alice"⟩).generated_otp =
      some "111111" ∧
    ((⟨0, some "111111", some "a@x", some "alice"⟩ : ResetState).reset_stage = 0 ∧
     (⟨0, some "111111", some "a@x", some "alice"⟩ : ResetState).generated_otp =
       some "111111") := by
  have h1 := C6_only_stage_reset ⟨1, some "111111", some "a@x", some "alice"⟩
  have h2 := C6_only_stage_reset ⟨2, some "111111", some "a@x", some "alice"⟩
  have happ := h2.2.2.2.2 [("alice", UserData.dict "pw" "a@x")] "new"
    [("alice", UserData.dict "new" "a@x")] ⟨0, some "111111", some "a@x", some "alice"⟩
    (by decide)
  exact ⟨h1.1, h1.2.1, happ.1, happ.2.1⟩

/-- C8: one Ask turn on a brand-new chat appends exactly the user message
and the assistant reply (which was produced from the prior history
excluding the just-appended user message, here empty), names the session
from the 20-character prefix of the first prompt, and persists the
2-entry transcript under that name. -/
theorem C8_ask_new_chat (send : GeminiOracle) (f : HistoryFile)
    (raw_text prompt : String) :
    ∃ reply,
      reply = get_gemini_response send prompt raw_text [] ∧
      (chat_turn send f ⟨[], newChatName, raw_text⟩ prompt).1.messages =
        [⟨"user", prompt⟩, ⟨"assistant", reply⟩] ∧
      (chat_turn send f ⟨[], newChatName, raw_text⟩ prompt).1.current_session_name =
        "Chat: " ++ prompt.take 20 ++ "..." ∧
      dictGet (load_history (chat_turn send f ⟨[], newChatName, raw_text⟩ prompt).2)
          ("Chat: " ++ prompt.take 20 ++ "...") =
        some [⟨"user", prompt⟩, ⟨"assistant", reply⟩] := by
  refine ⟨get_gemini_response send prompt raw_text [], rfl, ?_, ?_, ?_⟩
  · simp [chat_turn]
  · simp [chat_turn]
  · show dictGet (load_history (save_history f ("Chat: " ++ prompt.take 20 ++ "...")
        [⟨"user", prompt⟩, ⟨"assistant", get_gemini_response send prompt raw_text []⟩]))
      ("Chat: " ++ prompt.take 20 ++ "...") = _
    exact dictGet_dictSet_self _ _ _

/-- C10: in every reachable stage-2 state of the reset flow over an
unmutated account store, the ticket's username names a dict-shaped
account — stage 0 selects accounts only through an email match, which
legacy bare-string records can never satisfy — so the stage-2 password
write never indexes into a bare-string record. -/
theorem C10_stage2_dict_shaped (users : Users) (st : ResetState)
    (hnd : (users.map Prod.fst).Nodup)
    (hreach : ResetReachable users st) (hstage : st.reset_stage = 2) :
    ∃ u pw email, st.reset_username = some u ∧
      dictGet users u = some (.dict pw email) ∧
      ∀ newPw, (setNewPassword users st newPw).isSome := by
  obtain ⟨u, pw, email, hu, hacct⟩ :=
    reset_reachable_invariant users hnd st hreach (by omega)
  exact ⟨u, pw, email, hu, hacct,
    fun newPw => by simp [setNewPassword, hu, updatePassword, hacct]⟩

theorem C10_stage2_dict_shaped_witness :
    ∃ u pw email,
      (⟨2, some (decimalString 123456), some "a@x", some "alice"⟩ :
          ResetState).reset_username = some u ∧
      dictGet [("alice", UserData.dict "pw" "a@x")] u = some (.dict pw email) ∧
      ∀ newPw, (setNewPassword [("alice", UserData.dict "pw" "a@x")]
          ⟨2, some (decimalString 123456), some "a@x", some "alice"⟩ newPw).isSome := by
  have hstep1 : ResetStep [("alice", UserData.dict "pw" "a@x")] initialResetState
      ⟨1, some (decimalString 123456), some "a@x", some "alice"⟩ :=
    ResetStep.request "a@x" 123456 (Except.ok ()) none rfl (by decide)
  have hstep2 : ResetStep [("alice", UserData.dict "pw" "a@x")]
      ⟨1, some (decimalString 123456), some "a@x", some "alice"⟩
      ⟨2, some (decimalString 123456), some "a@x", some "alice"⟩ :=
    ResetStep.verify (decimalString 123456) none rfl (by decide)
  exact C10_stage2_dict_shaped [("alice", UserData.dict "pw" "a@x")]
    ⟨2, some (decimalString 123456), some "a@x", some "alice"⟩ (by decide)
    (ResetReachable.step (ResetReachable.step ResetReachable.init hstep1) hstep2) rfl

end StudyBuddy
